import Mathlib

/-!
Verification of the Layout Editing Engine of the Huddy-Web visual layout
editor: the layout data model, the Zustand store mutation API
(`src/store/editorStore`), the validation engine (`src/lib/validation`),
the element-kind catalog (`src/lib/element-definitions`) and the canvas
resize math (`Canvas.handleResizeMove`).  Numbers are modelled as exact
rationals, `Date.now()` as an explicit `now : Nat` argument, and the JS
`undefined` return value of a store action as `Option.none`.
-/

namespace HuddyWeb

/-- Visual properties of an element (the `visual` object of the exchange
format): position, size, colors, opacity, visibility and typography. -/
structure VisualProperties where
  x : ℚ
  y : ℚ
  width : ℚ
  height : ℚ
  backgroundColor : String
  foregroundColor : String
  needleColor : String
  opacity : ℚ
  visible : Bool
  showText : Bool
  fontFamily : String
  fontSize : ℚ
  fontWeight : String
  fontStyle : String
  deriving Repr, DecidableEq

/-- One positioned, styled, sensor-bound element of a layout document.
Element kinds are runtime strings (the TS union type is erased at runtime
and the canvas calls `createElement(currentTool as any, ...)`). -/
structure Element where
  id : String
  type : String
  sensor : String
  visual : VisualProperties
  animated : Bool
  animationSpeed : ℚ
  deriving Repr, DecidableEq

/-- Optional descriptive metadata of a layout document (exchange format,
spec section 6); absent fields are `none`. -/
structure LayoutMetadata where
  name : Option String
  description : Option String
  author : Option String
  deriving Repr, DecidableEq

/-- The canonical layout document: a format version, an ordered element
sequence (display z-order) and optional metadata. -/
structure LayoutData where
  version : String
  elements : List Element
  metadata : Option LayoutMetadata := none
  deriving Repr, DecidableEq

/-- Locator of a validation issue.  The source builds dotted/indexed path
strings; `root` stands for the path `"root"` and `elem i f` for
`"elements[" ++ toString i ++ "]." ++ f` (rendered by `IssuePath.render`). -/
inductive IssuePath where
  | root
  | elem (index : Nat) (field : String)
  deriving Repr, DecidableEq

/-- The path string exactly as the source's `validateLayout` builds it. -/
def IssuePath.render : IssuePath → String
  | .root => "root"
  | .elem index field =>
      let i := toString index
      s!"elements[{i}].{field}"

/-- A single reported problem: locator, message and severity
(the source uses the string literals `"error"` and `"warning"`). -/
structure ValidationError where
  path : IssuePath
  message : String
  severity : String
  deriving Repr, DecidableEq

/-- Result of validating a document: overall flag plus ordered error and
warning sequences. -/
structure ValidationResult where
  isValid : Bool
  errors : List ValidationError
  warnings : List ValidationError
  deriving Repr, DecidableEq

/-- The known sensor identifiers (`VALID_SENSOR_IDS` in
`src/lib/validation`). -/
def VALID_SENSOR_IDS : List String :=
  ["CPU_Utilization", "CPU_Temperature", "CPU_Power", "CPU_Voltage", "CPU_Clock",
   "CPU_Core_0", "CPU_Core_1", "CPU_Core_2", "CPU_Core_3", "CPU_Core_4",
   "CPU_Core_5", "CPU_Core_6", "CPU_Core_7",
   "GPU_Utilization", "GPU_Temperature", "GPU_Memory", "GPU_Power", "GPU_Clock", "GPU_Fan",
   "Memory_Usage", "Memory_Total", "Memory_Available", "Memory_Bandwidth",
   "WiFi_Speed", "Ethernet_Speed", "Network_Upload", "Network_Download",
   "Disk_Usage", "Disk_Temperature", "Disk_Read", "Disk_Write",
   "Motherboard_Temperature", "Fan_CPU", "Fan_Case_1", "Fan_Case_2",
   "PSU_Power", "PSU_Voltage_12V", "PSU_Voltage_5V"]

/-- Accepted font weights (`validFontWeights` in the source). -/
def validFontWeights : List String :=
  ["normal", "bold", "100", "200", "300", "400", "500", "600", "700", "800", "900"]

/-- Accepted font styles (`validFontStyles` in the source). -/
def validFontStyles : List String :=
  ["normal", "italic", "oblique"]

/-- Hexadecimal digit, `[0-9a-fA-F]` of `COLOR_REGEX`. -/
def isHexDigit (c : Char) : Bool :=
  c.isDigit || ('a' ≤ c && c ≤ 'f') || ('A' ≤ c && c ≤ 'F')

/-- Consume an exact literal prefix; `none` when the input does not start
with it. -/
def dropLit : List Char → List Char → Option (List Char)
  | [], cs => some cs
  | _ :: _, [] => none
  | p :: ps, c :: cs => if c = p then dropLit ps cs else none

/-- Consume `\s*` (whitespace, zero or more). -/
def dropSpaces (cs : List Char) : List Char :=
  cs.dropWhile (fun c => c.isWhitespace)

/-- Consume `\d+` (one or more decimal digits). -/
def dropDigits1 (cs : List Char) : Option (List Char) :=
  if (cs.takeWhile Char.isDigit).isEmpty then none
  else some (cs.dropWhile Char.isDigit)

/-- Consume `[0-9.]+` (one or more digits or dots). -/
def dropNumDot1 (cs : List Char) : Option (List Char) :=
  if (cs.takeWhile (fun c => c.isDigit || c = '.')).isEmpty then none
  else some (cs.dropWhile (fun c => c.isDigit || c = '.'))

/-- Consume `,\s*\d+` (a comma, optional whitespace, digits). -/
def dropCommaDigits (cs : List Char) : Option (List Char) := do
  let cs ← dropLit [','] cs
  dropDigits1 (dropSpaces cs)

/-- Match `#[0-9a-fA-F]{3,6}` anchored to the end. -/
def matchHexColor : List Char → Bool
  | '#' :: rest =>
      decide (3 ≤ rest.length) && decide (rest.length ≤ 6) && rest.all isHexDigit
  | _ => false

/-- Match `rgb\(\d+,\s*\d+,\s*\d+\)` anchored to the end. -/
def matchRgb (cs : List Char) : Bool :=
  (do
    let cs ← dropLit ['r', 'g', 'b', '('] cs
    let cs ← dropDigits1 cs
    let cs ← dropCommaDigits cs
    let cs ← dropCommaDigits cs
    dropLit [')'] cs) = some []

/-- Match `rgba\(\d+,\s*\d+,\s*\d+,\s*[0-9.]+\)` anchored to the end. -/
def matchRgba (cs : List Char) : Bool :=
  (do
    let cs ← dropLit ['r', 'g', 'b', 'a', '('] cs
    let cs ← dropDigits1 cs
    let cs ← dropCommaDigits cs
    let cs ← dropCommaDigits cs
    let cs ← dropLit [','] cs
    let cs ← dropNumDot1 (dropSpaces cs)
    dropLit [')'] cs) = some []

/-- Match `hsl\(\d+,\s*\d+%,\s*\d+%\)` anchored to the end. -/
def matchHsl (cs : List Char) : Bool :=
  (do
    let cs ← dropLit ['h', 's', 'l', '('] cs
    let cs ← dropDigits1 cs
    let cs ← dropCommaDigits cs
    let cs ← dropLit ['%'] cs
    let cs ← dropCommaDigits cs
    let cs ← dropLit ['%'] cs
    dropLit [')'] cs) = some []

/-- Match `hsla\(\d+,\s*\d+%,\s*\d+%,\s*[0-9.]+\)` anchored to the end. -/
def matchHsla (cs : List Char) : Bool :=
  (do
    let cs ← dropLit ['h', 's', 'l', 'a', '('] cs
    let cs ← dropDigits1 cs
    let cs ← dropCommaDigits cs
    let cs ← dropLit ['%'] cs
    let cs ← dropCommaDigits cs
    let cs ← dropLit ['%'] cs
    let cs ← dropLit [','] cs
    let cs ← dropNumDot1 (dropSpaces cs)
    dropLit [')'] cs) = some []

/-- The anchored color grammar `COLOR_REGEX` of `src/lib/validation`:
`^(transparent|#[0-9a-fA-F]{3,6}|rgb\(...\)|rgba\(...\)|hsl\(...\)|hsla\(...\))$`. -/
def matchColor (s : String) : Bool :=
  s = "transparent"
    || matchHexColor s.data
    || matchRgb s.data
    || matchRgba s.data
    || matchHsl s.data
    || matchHsla s.data

/-- Decimal rendering of a rational for issue messages (the source
interpolates JS numbers; the exact text of a message carries no logic). -/
def ratStr (q : ℚ) : String :=
  let n := toString q.num
  let d := toString q.den
  if q.den = 1 then n else s!"{n}/{d}"

/-- Error-severity issues contributed by one element (index `index` in the
document), in the push order of the source's `validateLayout` loop:
duplicate id, the three color fields, opacity, font weight, font style,
width, height.  `allElements` is the whole element sequence, used by the
duplicate-id check `layout.elements.filter(el => el.id === element.id)`.
The color checks are guarded by JS truthiness (`element.visual.backgroundColor &&`),
so an empty color string is skipped. -/
def elementErrors (allElements : List Element) (index : Nat) (element : Element) :
    List ValidationError :=
  let eid := element.id
  let bg := element.visual.backgroundColor
  let fg := element.visual.foregroundColor
  let nc := element.visual.needleColor
  let op := ratStr element.visual.opacity
  let fw := element.visual.fontWeight
  let fs := element.visual.fontStyle
  let wd := ratStr element.visual.width
  let ht := ratStr element.visual.height
  let weights := String.intercalate ", " validFontWeights
  let styles := String.intercalate ", " validFontStyles
  (if (allElements.filter (fun el => el.id == element.id)).length > 1 then
      [⟨.elem index "id", s!"Duplicate element ID: {eid}", "error"⟩]
    else [])
  ++ (if bg ≠ "" ∧ matchColor bg = false then
      [⟨.elem index "visual.backgroundColor", s!"Invalid color format: {bg}", "error"⟩]
    else [])
  ++ (if fg ≠ "" ∧ matchColor fg = false then
      [⟨.elem index "visual.foregroundColor", s!"Invalid color format: {fg}", "error"⟩]
    else [])
  ++ (if nc ≠ "" ∧ matchColor nc = false then
      [⟨.elem index "visual.needleColor", s!"Invalid color format: {nc}", "error"⟩]
    else [])
  ++ (if element.visual.opacity < 0 ∨ element.visual.opacity > 1 then
      [⟨.elem index "visual.opacity", s!"Opacity must be between 0 and 1, got: {op}", "error"⟩]
    else [])
  ++ (if validFontWeights.contains element.visual.fontWeight = false then
      [⟨.elem index "visual.fontWeight",
        s!"Font weight must be one of: {weights}, got: {fw}", "error"⟩]
    else [])
  ++ (if validFontStyles.contains element.visual.fontStyle = false then
      [⟨.elem index "visual.fontStyle",
        s!"Font style must be one of: {styles}, got: {fs}", "error"⟩]
    else [])
  ++ (if element.visual.width ≤ 0 then
      [⟨.elem index "visual.width", s!"Width must be greater than 0, got: {wd}", "error"⟩]
    else [])
  ++ (if element.visual.height ≤ 0 then
      [⟨.elem index "visual.height", s!"Height must be greater than 0, got: {ht}", "error"⟩]
    else [])

/-- Warning-severity issues contributed by one element, in the push order
of the source: unknown sensor (guarded by `element.sensor &&`, so an empty
sensor string is skipped), font size range, negative x, negative y, and
animation speed (guarded by `element.animated && element.animationSpeed`,
so speed `0` is skipped by JS truthiness). -/
def elementWarnings (index : Nat) (element : Element) : List ValidationError :=
  let sen := element.sensor
  let sensors := String.intercalate ", " VALID_SENSOR_IDS
  let fsz := ratStr element.visual.fontSize
  let xv := ratStr element.visual.x
  let yv := ratStr element.visual.y
  let sp := ratStr element.animationSpeed
  (if element.sensor ≠ "" ∧ VALID_SENSOR_IDS.contains element.sensor = false then
      [⟨.elem index "sensor",
        s!"Unknown sensor ID: {sen}. Valid sensors: {sensors}", "warning"⟩]
    else [])
  ++ (if element.visual.fontSize < 8 ∨ element.visual.fontSize > 72 then
      [⟨.elem index "visual.fontSize",
        s!"Font size should be between 8 and 72 pixels, got: {fsz}", "warning"⟩]
    else [])
  ++ (if element.visual.x < 0 then
      [⟨.elem index "visual.x", s!"X position is negative: {xv}", "warning"⟩]
    else [])
  ++ (if element.visual.y < 0 then
      [⟨.elem index "visual.y", s!"Y position is negative: {yv}", "warning"⟩]
    else [])
  ++ (if element.animated = true ∧ element.animationSpeed ≠ 0 ∧
        (element.animationSpeed < 1/10 ∨ element.animationSpeed > 10) then
      [⟨.elem index "animationSpeed",
        s!"Animation speed should be between 0.1 and 10.0, got: {sp}", "warning"⟩]
    else [])

/-- Pair each element with its index, mirroring `elements.forEach((element, index) => ...)`. -/
def withIdx (start : Nat) : List Element → List (Nat × Element)
  | [] => []
  | e :: es => (start, e) :: withIdx (start + 1) es

/-- Modelled from the spec: the JSON-schema validation step.  The compiled
schema file `overlay-layout.schema.json` imported by `src/lib/validation`
is not in the repository; per spec section 4.1 its structural errors arise
from a missing format version or elements sequence, elements missing
id/kind/sensorRef/visual, or non-finite numeric x/y/width/height.  On this
typed model every required field is present and every numeral is an exact
rational, so the schema step contributes no issues. -/
def schemaIssues (_layout : LayoutData) : List ValidationError := []

/-- The validation engine `validateLayout` of `src/lib/validation`: schema
issues first, then the per-element custom rules accumulated in document
order; `isValid` iff no errors. -/
def validateLayout (layout : LayoutData) : ValidationResult :=
  let indexed := withIdx 0 layout.elements
  let errors := schemaIssues layout
    ++ indexed.flatMap (fun p => elementErrors layout.elements p.1 p.2)
  let warnings := indexed.flatMap (fun p => elementWarnings p.1 p.2)
  ⟨errors.isEmpty, errors, warnings⟩

/-- Default pixel size of an element kind. -/
structure DefaultSize where
  width : ℚ
  height : ℚ
  deriving Repr, DecidableEq

/-- One entry of the element-kind catalog
(`ELEMENT_DEFINITIONS` in `src/lib/element-definitions`). -/
structure ElementDefinition where
  type : String
  name : String
  description : String
  category : String
  icon : String
  defaultSize : DefaultSize
  suggestedSensors : List String
  requiredProperties : List String
  optionalProperties : List String
  deriving Repr, DecidableEq

/-- The element-kind catalog `ELEMENT_DEFINITIONS`, a record keyed by
element type; looking up a key that is not an element kind yields
`undefined` in JS, modelled as `none`. -/
def ELEMENT_DEFINITIONS : String → Option ElementDefinition
  | "gauge" => some ⟨"gauge", "Gauge", "Circular needle gauge for displaying values", "basic", "⭕", ⟨150, 150⟩, ["CPU_Utilization", "GPU_Utilization", "Memory_Usage"], ["needleColor"], ["backgroundColor", "foregroundColor"]⟩
  | "text" => some ⟨"text", "Text", "Dynamic text display for sensor values", "basic", "📝", ⟨100, 30⟩, ["CPU_Temperature", "GPU_Temperature", "Memory_Total"], ["fontFamily", "fontSize", "foregroundColor"], ["backgroundColor"]⟩
  | "bar" => some ⟨"bar", "Progress Bar", "Horizontal or vertical progress bar", "basic", "📊", ⟨200, 30⟩, ["CPU_Utilization", "GPU_Utilization", "Memory_Usage"], ["backgroundColor", "foregroundColor"], ["needleColor"]⟩
  | "circle" => some ⟨"circle", "Circle", "Value-scaled circular element", "basic", "⭕", ⟨100, 100⟩, ["CPU_Utilization", "GPU_Utilization"], ["backgroundColor", "foregroundColor"], ["needleColor"]⟩
  | "rectangle" => some ⟨"rectangle", "Rectangle", "Basic rectangular element", "basic", "⬜", ⟨100, 50⟩, ["CPU_Utilization", "GPU_Utilization"], ["backgroundColor", "foregroundColor"], []⟩
  | "line" => some ⟨"line", "Line", "Value-thickness line element", "basic", "📏", ⟨200, 10⟩, ["CPU_Utilization", "GPU_Utilization"], ["foregroundColor"], ["backgroundColor"]⟩
  | "progress_ring" => some ⟨"progress_ring", "Progress Ring", "Circular progress with segments", "gauges", "🔄", ⟨150, 150⟩, ["CPU_Utilization", "GPU_Utilization", "Memory_Usage"], ["backgroundColor", "foregroundColor", "needleColor"], []⟩
  | "dial" => some ⟨"dial", "Dial", "Traditional dial gauge", "gauges", "🎛️", ⟨150, 150⟩, ["CPU_Temperature", "GPU_Temperature"], ["backgroundColor", "foregroundColor", "needleColor"], []⟩
  | "thermometer" => some ⟨"thermometer", "Thermometer", "Temperature with bulb visualization", "gauges", "🌡️", ⟨50, 200⟩, ["CPU_Temperature", "GPU_Temperature", "Disk_Temperature"], ["backgroundColor", "foregroundColor"], ["needleColor"]⟩
  | "speedometer" => some ⟨"speedometer", "Speedometer", "Car-style gauge", "gauges", "🏎️", ⟨200, 150⟩, ["CPU_Clock", "GPU_Clock"], ["backgroundColor", "foregroundColor", "needleColor"], []⟩
  | "level_meter" => some ⟨"level_meter", "Level Meter", "Vertical/horizontal level display", "gauges", "📊", ⟨30, 200⟩, ["Memory_Usage", "Disk_Usage"], ["backgroundColor", "foregroundColor"], ["needleColor"]⟩
  | "radial_gauge" => some ⟨"radial_gauge", "Radial Gauge", "Circular value display", "gauges", "⭕", ⟨150, 150⟩, ["CPU_Utilization", "GPU_Utilization"], ["backgroundColor", "foregroundColor", "needleColor"], []⟩
  | "linear_gauge" => some ⟨"linear_gauge", "Linear Gauge", "Straight-line gauge", "gauges", "📏", ⟨200, 50⟩, ["CPU_Utilization", "GPU_Utilization"], ["backgroundColor", "foregroundColor", "needleColor"], []⟩
  | "led" => some ⟨"led", "LED", "On/off light with glow effect", "indicators", "💡", ⟨20, 20⟩, ["CPU_Utilization", "GPU_Utilization"], ["backgroundColor", "foregroundColor"], ["needleColor"]⟩
  | "status_light" => some ⟨"status_light", "Status Light", "System status indicator", "indicators", "🟢", ⟨30, 30⟩, ["CPU_Utilization", "GPU_Utilization"], ["backgroundColor", "foregroundColor"], ["needleColor"]⟩
  | "traffic_light" => some ⟨"traffic_light", "Traffic Light", "Multi-state indicator", "indicators", "🚦", ⟨40, 100⟩, ["CPU_Temperature", "GPU_Temperature"], ["backgroundColor", "foregroundColor"], ["needleColor"]⟩
  | "battery" => some ⟨"battery", "Battery", "Charge level with color coding", "indicators", "🔋", ⟨60, 30⟩, ["Memory_Usage", "Disk_Usage", "GPU_Memory"], ["backgroundColor", "foregroundColor"], ["needleColor"]⟩
  | "signal_bars" => some ⟨"signal_bars", "Signal Bars", "Network strength bars", "indicators", "📶", ⟨40, 60⟩, ["WiFi_Speed", "Ethernet_Speed", "Network_Upload"], ["backgroundColor", "foregroundColor"], ["needleColor"]⟩
  | "wifi_indicator" => some ⟨"wifi_indicator", "WiFi Indicator", "Wireless signal display", "indicators", "📶", ⟨50, 50⟩, ["WiFi_Speed", "Network_Upload"], ["backgroundColor", "foregroundColor"], ["needleColor"]⟩
  | "cpu_cores" => some ⟨"cpu_cores", "CPU Cores", "8-core CPU visualization", "system", "🖥️", ⟨200, 100⟩, ["CPU_Utilization", "CPU_Core_0", "CPU_Core_1"], ["backgroundColor", "foregroundColor"], ["needleColor"]⟩
  | "memory_banks" => some ⟨"memory_banks", "Memory Banks", "RAM module display", "system", "💾", ⟨150, 200⟩, ["Memory_Usage", "Memory_Total"], ["backgroundColor", "foregroundColor"], ["needleColor"]⟩
  | "network_activity" => some ⟨"network_activity", "Network Activity", "Data flow indicators", "system", "🌐", ⟨200, 100⟩, ["Network_Upload", "Network_Download", "WiFi_Speed"], ["backgroundColor", "foregroundColor"], ["needleColor"]⟩
  | "disk_activity" => some ⟨"disk_activity", "Disk Activity", "Storage I/O visualization", "system", "💿", ⟨200, 100⟩, ["Disk_Read", "Disk_Write", "Disk_Usage"], ["backgroundColor", "foregroundColor"], ["needleColor"]⟩
  | "fan_blade" => some ⟨"fan_blade", "Fan Blade", "Rotating fan display", "system", "🌀", ⟨100, 100⟩, ["Fan_CPU", "Fan_Case_1", "GPU_Fan"], ["backgroundColor", "foregroundColor"], ["needleColor"]⟩
  | "temperature_zones" => some ⟨"temperature_zones", "Temperature Zones", "Heat distribution map", "system", "🌡️", ⟨200, 150⟩, ["CPU_Temperature", "GPU_Temperature", "Motherboard_Temperature"], ["backgroundColor", "foregroundColor"], ["needleColor"]⟩
  | "line_graph" => some ⟨"line_graph", "Line Graph", "Time-series data", "graphs", "📈", ⟨300, 150⟩, ["CPU_Utilization", "GPU_Utilization", "Memory_Usage"], ["backgroundColor", "foregroundColor"], ["needleColor"]⟩
  | "area_graph" => some ⟨"area_graph", "Area Graph", "Filled area charts", "graphs", "📊", ⟨300, 150⟩, ["CPU_Utilization", "GPU_Utilization"], ["backgroundColor", "foregroundColor"], ["needleColor"]⟩
  | "sparkline" => some ⟨"sparkline", "Sparkline", "Mini trend lines", "graphs", "⚡", ⟨100, 30⟩, ["CPU_Utilization", "GPU_Utilization"], ["foregroundColor"], ["backgroundColor", "needleColor"]⟩
  | "histogram" => some ⟨"histogram", "Histogram", "Bar distributions", "graphs", "📊", ⟨200, 150⟩, ["CPU_Utilization", "GPU_Utilization"], ["backgroundColor", "foregroundColor"], ["needleColor"]⟩
  | "pie_chart" => some ⟨"pie_chart", "Pie Chart", "Circular data slices", "graphs", "🥧", ⟨150, 150⟩, ["CPU_Utilization", "GPU_Utilization", "Memory_Usage"], ["backgroundColor", "foregroundColor"], ["needleColor"]⟩
  | "donut_chart" => some ⟨"donut_chart", "Donut Chart", "Ring charts", "graphs", "🍩", ⟨150, 150⟩, ["CPU_Utilization", "GPU_Utilization", "Memory_Usage"], ["backgroundColor", "foregroundColor"], ["needleColor"]⟩
  | "button" => some ⟨"button", "Button", "Clickable elements", "interactive", "🔘", ⟨100, 40⟩, [], ["backgroundColor", "foregroundColor"], ["needleColor"]⟩
  | "toggle" => some ⟨"toggle", "Toggle", "Switch controls", "interactive", "🔄", ⟨60, 30⟩, [], ["backgroundColor", "foregroundColor"], ["needleColor"]⟩
  | "slider" => some ⟨"slider", "Slider", "Range selectors", "interactive", "🎚️", ⟨200, 20⟩, [], ["backgroundColor", "foregroundColor"], ["needleColor"]⟩
  | "knob" => some ⟨"knob", "Knob", "Rotary controls", "interactive", "🎛️", ⟨60, 60⟩, [], ["backgroundColor", "foregroundColor"], ["needleColor"]⟩
  | "particle_system" => some ⟨"particle_system", "Particle System", "Dynamic particle effects", "effects", "✨", ⟨200, 200⟩, ["CPU_Utilization", "GPU_Utilization"], ["backgroundColor", "foregroundColor"], ["needleColor"]⟩
  | "wave_form" => some ⟨"wave_form", "Wave Form", "Audio/signal waves", "effects", "🌊", ⟨300, 100⟩, ["CPU_Utilization", "GPU_Utilization"], ["backgroundColor", "foregroundColor"], ["needleColor"]⟩
  | "spectrum_analyzer" => some ⟨"spectrum_analyzer", "Spectrum Analyzer", "Frequency display", "effects", "📊", ⟨300, 150⟩, ["CPU_Utilization", "GPU_Utilization"], ["backgroundColor", "foregroundColor"], ["needleColor"]⟩
  | "flame_effect" => some ⟨"flame_effect", "Flame Effect", "Fire animations", "effects", "🔥", ⟨100, 150⟩, ["CPU_Temperature", "GPU_Temperature"], ["backgroundColor", "foregroundColor"], ["needleColor"]⟩
  | "liquid_fill" => some ⟨"liquid_fill", "Liquid Fill", "Fluid-style fills", "effects", "💧", ⟨100, 200⟩, ["Memory_Usage", "Disk_Usage"], ["backgroundColor", "foregroundColor"], ["needleColor"]⟩
  | _ => none

/-- The slice of the Zustand editor store state the layout engine claims
are about: the canonical document, the selection, the clipboard and the
cached validation result. -/
structure EditorState where
  layout : LayoutData
  selectedElementIds : List String
  clipboard : List Element
  validationResult : Option ValidationResult
  deriving Repr, DecidableEq

/-- The store's initial document, `defaultLayout`. -/
def defaultLayout : LayoutData := ⟨"1.0", [], none⟩

/-- The store's initial state. -/
def initialState : EditorState := ⟨defaultLayout, [], [], none⟩

/-- The store's `validateLayout` action: runs the validation engine on the
current document and caches the result. -/
def runValidate (s : EditorState) : EditorState :=
  {s with validationResult := some (validateLayout s.layout)}

/-- `setLayout`: replaces the document wholesale, then re-validates. -/
def setLayout (s : EditorState) (layout : LayoutData) : EditorState :=
  runValidate {s with layout := layout}

/-- `addElement`: appends the element to the end of the document, then
re-validates. -/
def addElement (s : EditorState) (element : Element) : EditorState :=
  runValidate {s with
    layout := {s.layout with elements := s.layout.elements ++ [element]}}

/-- JS string `a || b`: the right operand when the left is `undefined` or
the empty string (falsy). -/
def jsOrStr (a : Option String) (b : String) : String :=
  match a with
  | some v => if v = "" then b else v
  | none => b

/-- `createElement(type, x, y, sensor?)`: returns early when the type has
no catalog entry; otherwise synthesizes an element with id
`` `${type}_${Date.now()}` ``, sensor `sensor || suggestedSensors[0] || 'CPU_Utilization'`,
the catalog's default size and the fixed default visual properties, and
appends it via `addElement`.  `Date.now()` is the explicit `now` argument;
the second component models the JS return value, which is `undefined`
(the action's declared type is `=> void`). -/
def createElement (s : EditorState) (type : String) (x y : ℚ)
    (sensor : Option String) (now : Nat) : EditorState × Option String :=
  match ELEMENT_DEFINITIONS type with
  | none => (s, none)
  | some defn =>
      let element : Element :=
        { id := s!"{type}_{now}"
          type := type
          sensor := jsOrStr sensor (jsOrStr defn.suggestedSensors.head? "CPU_Utilization")
          visual :=
            { x := x, y := y
              width := defn.defaultSize.width
              height := defn.defaultSize.height
              backgroundColor := "#333333"
              foregroundColor := "#ffffff"
              needleColor := "#00ff00"
              opacity := 1
              visible := true
              showText := true
              fontFamily := "Consolas"
              fontSize := 12
              fontWeight := "normal"
              fontStyle := "normal" }
          animated := false
          animationSpeed := 1 }
      (addElement s element, none)

/-- `removeElement(id)`: filters the element out of the document and the
id out of the selection, then re-validates.  The clipboard is not
touched. -/
def removeElement (s : EditorState) (id : String) : EditorState :=
  runValidate {s with
    layout := {s.layout with elements := s.layout.elements.filter (fun el => el.id ≠ id)}
    selectedElementIds := s.selectedElementIds.filter (fun selectedId => selectedId ≠ id)}

/-- `duplicateElement(id)`: clones the first element with the id, giving
it id `` `${element.id}_copy_${Date.now()}` `` and offsetting its position
by (+20, +20); no-op when the id is absent. -/
def duplicateElement (s : EditorState) (id : String) (now : Nat) : EditorState :=
  match s.layout.elements.find? (fun el => el.id == id) with
  | some element =>
      let eid := element.id
      addElement s
        { element with
          id := s!"{eid}_copy_{now}"
          visual := { element.visual with
            x := element.visual.x + 20
            y := element.visual.y + 20 } }
  | none => s

/-- `selectElement(id)`: replaces the selection with exactly `[id]` — the
id is not checked against the document (the canvas even passes the empty
string to deselect). -/
def selectElement (s : EditorState) (id : String) : EditorState :=
  {s with selectedElementIds := [id]}

/-- `selectMultiple(ids)`: replaces the selection with exactly `ids`. -/
def selectMultiple (s : EditorState) (ids : List String) : EditorState :=
  {s with selectedElementIds := ids}

/-- `clearSelection()`: empties the selection. -/
def clearSelection (s : EditorState) : EditorState :=
  {s with selectedElementIds := []}

/-- `toggleSelection(id)`: removes the id from the selection when present,
appends it otherwise; no check against the document. -/
def toggleSelection (s : EditorState) (id : String) : EditorState :=
  if s.selectedElementIds.contains id then
    {s with selectedElementIds :=
      s.selectedElementIds.filter (fun selectedId => selectedId ≠ id)}
  else
    {s with selectedElementIds := s.selectedElementIds ++ [id]}

/-- `copySelected()`: the clipboard becomes the selected elements, in
document order. -/
def copySelected (s : EditorState) : EditorState :=
  {s with clipboard :=
    s.layout.elements.filter (fun el => s.selectedElementIds.contains el.id)}

/-- `paste()`: appends a copy of every clipboard element with id
`` `${el.id}_paste_${Date.now()}` `` and position offset (+20, +20), then
re-validates; an empty clipboard pastes nothing. -/
def paste (s : EditorState) (now : Nat) : EditorState :=
  let pasted := s.clipboard.map (fun el =>
    let eid := el.id
    { el with
      id := s!"{eid}_paste_{now}"
      visual := { el.visual with x := el.visual.x + 20, y := el.visual.y + 20 } })
  runValidate {s with
    layout := {s.layout with elements := s.layout.elements ++ pasted}}

/-- The size recorded at resize start (`resizeStart` in `Canvas`), holding
the screen position of the pointer-down and the element's size then. -/
structure ResizeStart where
  x : ℚ
  y : ℚ
  width : ℚ
  height : ℚ
  deriving Repr, DecidableEq

/-- JS `string.includes(ch)` for a single character: membership of the
character among the string's characters. -/
def jsIncludesChar (s : String) (c : Char) : Bool := s.data.contains c

/-- The size computation of `Canvas.handleResizeMove`: a canvas-space
delta `(clientX - resizeStart.x) / zoom` against the resize-start size,
width growing with an `e` edge and shrinking with `w` (symmetrically `s` /
`n` for height), then the unconditional 20×20 minimum-size floor. -/
def handleResizeMove (resizeStart : ResizeStart) (resizeHandle : String)
    (clientX clientY zoom : ℚ) : ℚ × ℚ :=
  let deltaX := (clientX - resizeStart.x) / zoom
  let deltaY := (clientY - resizeStart.y) / zoom
  let w1 := if jsIncludesChar resizeHandle 'e' then resizeStart.width + deltaX else resizeStart.width
  let w2 := if jsIncludesChar resizeHandle 'w' then w1 - deltaX else w1
  let h1 := if jsIncludesChar resizeHandle 's' then resizeStart.height + deltaY else resizeStart.height
  let h2 := if jsIncludesChar resizeHandle 'n' then h1 - deltaY else h1
  (max 20 w2, max 20 h2)

/-- Modelled from the spec: the JSON value space of the document exchange
format.  `exportLayout` / `importLayout` call the host primitives
`JSON.stringify` / `JSON.parse`, which are not repository code; following
spec section 6 the exchange is modelled at the level of JSON values. -/
inductive Json where
  | jnull
  | jbool (b : Bool)
  | jnum (q : ℚ)
  | jstr (s : String)
  | jarr (items : List Json)
  | jobj (fields : List (String × Json))
  deriving Repr

/-- Field lookup in a JSON object expecting a number. -/
def getNum (fields : List (String × Json)) (key : String) : Option ℚ :=
  match fields.lookup key with
  | some (.jnum q) => some q
  | _ => none

/-- Field lookup in a JSON object expecting a string. -/
def getStr (fields : List (String × Json)) (key : String) : Option String :=
  match fields.lookup key with
  | some (.jstr s) => some s
  | _ => none

/-- Field lookup in a JSON object expecting a boolean. -/
def getBool (fields : List (String × Json)) (key : String) : Option Bool :=
  match fields.lookup key with
  | some (.jbool b) => some b
  | _ => none

/-- Field lookup for an optional string field: an absent key is `none`
(JSON.stringify omits undefined fields), a present key must be a string. -/
def getOptStr (fields : List (String × Json)) (key : String) : Option (Option String) :=
  match fields.lookup key with
  | none => some none
  | some (.jstr s) => some (some s)
  | some _ => none

/-- Modelled from the spec: the `visual` object of the exchange format
(section 6), one key per `VisualProperties` field. -/
def encodeVisual (v : VisualProperties) : Json :=
  .jobj
    [("x", .jnum v.x), ("y", .jnum v.y),
     ("width", .jnum v.width), ("height", .jnum v.height),
     ("backgroundColor", .jstr v.backgroundColor),
     ("foregroundColor", .jstr v.foregroundColor),
     ("needleColor", .jstr v.needleColor),
     ("opacity", .jnum v.opacity),
     ("visible", .jbool v.visible),
     ("showText", .jbool v.showText),
     ("fontFamily", .jstr v.fontFamily),
     ("fontSize", .jnum v.fontSize),
     ("fontWeight", .jstr v.fontWeight),
     ("fontStyle", .jstr v.fontStyle)]

/-- Modelled from the spec: reading a `visual` object back. -/
def decodeVisual (j : Json) : Option VisualProperties :=
  match j with
  | .jobj fields => do
      let x ← getNum fields "x"
      let y ← getNum fields "y"
      let width ← getNum fields "width"
      let height ← getNum fields "height"
      let backgroundColor ← getStr fields "backgroundColor"
      let foregroundColor ← getStr fields "foregroundColor"
      let needleColor ← getStr fields "needleColor"
      let opacity ← getNum fields "opacity"
      let visible ← getBool fields "visible"
      let showText ← getBool fields "showText"
      let fontFamily ← getStr fields "fontFamily"
      let fontSize ← getNum fields "fontSize"
      let fontWeight ← getStr fields "fontWeight"
      let fontStyle ← getStr fields "fontStyle"
      pure ⟨x, y, width, height, backgroundColor, foregroundColor, needleColor,
            opacity, visible, showText, fontFamily, fontSize, fontWeight, fontStyle⟩
  | _ => none

/-- Modelled from the spec: an element object of the exchange format,
`id, type, sensor, visual, animated, animationSpeed`. -/
def encodeElement (e : Element) : Json :=
  .jobj
    [("id", .jstr e.id), ("type", .jstr e.type), ("sensor", .jstr e.sensor),
     ("visual", encodeVisual e.visual),
     ("animated", .jbool e.animated),
     ("animationSpeed", .jnum e.animationSpeed)]

/-- Modelled from the spec: reading an element object back. -/
def decodeElement (j : Json) : Option Element :=
  match j with
  | .jobj fields => do
      let id ← getStr fields "id"
      let type ← getStr fields "type"
      let sensor ← getStr fields "sensor"
      let visualJson ← fields.lookup "visual"
      let visual ← decodeVisual visualJson
      let animated ← getBool fields "animated"
      let animationSpeed ← getNum fields "animationSpeed"
      pure ⟨id, type, sensor, visual, animated, animationSpeed⟩
  | _ => none

/-- Reading back a list of element objects, failing on the first bad one. -/
def decodeElements : List Json → Option (List Element)
  | [] => some []
  | j :: rest => do
      let e ← decodeElement j
      let es ← decodeElements rest
      pure (e :: es)

/-- Modelled from the spec: the optional `metadata` object; `none` fields
are omitted, as `JSON.stringify` omits undefined properties. -/
def encodeMeta (m : LayoutMetadata) : Json :=
  .jobj
    ((match m.name with | some n => [("name", Json.jstr n)] | none => [])
      ++ (match m.description with | some d => [("description", Json.jstr d)] | none => [])
      ++ (match m.author with | some a => [("author", Json.jstr a)] | none => []))

/-- Modelled from the spec: reading a `metadata` object back. -/
def decodeMeta (j : Json) : Option LayoutMetadata :=
  match j with
  | .jobj fields => do
      let name ← getOptStr fields "name"
      let description ← getOptStr fields "description"
      let author ← getOptStr fields "author"
      pure ⟨name, description, author⟩
  | _ => none

/-- Modelled from the spec: `serialize(document)` — the JSON value
`exportLayout`'s `JSON.stringify(state.layout, null, 2)` renders. -/
def encodeLayout (d : LayoutData) : Json :=
  .jobj
    ([("version", Json.jstr d.version),
      ("elements", Json.jarr (d.elements.map encodeElement))]
      ++ (match d.metadata with | some m => [("metadata", encodeMeta m)] | none => []))

/-- Modelled from the spec: `deserialize(bytes)` — reading the document
back from the JSON value `importLayout`'s `JSON.parse` produces; `none` is
the `ParseError` case. -/
def decodeLayout (j : Json) : Option LayoutData :=
  match j with
  | .jobj fields => do
      let version ← getStr fields "version"
      let elementsJson ←
        match fields.lookup "elements" with
        | some (.jarr items) => some items
        | _ => none
      let elements ← decodeElements elementsJson
      let metadata ←
        match fields.lookup "metadata" with
        | none => some none
        | some mj => (decodeMeta mj).map some
      pure ⟨version, elements, metadata⟩
  | _ => none

/-- No-error side conditions for one element: its colors pass the color
grammar (or are empty, which the JS truthiness guard skips), opacity lies
in `[0,1]`, font weight and style are accepted, and width and height are
positive — exactly the conditions under which `validateLayout` raises no
non-duplicate error for the element. -/
def elementVisualOk (e : Element) : Prop :=
  (e.visual.backgroundColor = "" ∨ matchColor e.visual.backgroundColor = true)
  ∧ (e.visual.foregroundColor = "" ∨ matchColor e.visual.foregroundColor = true)
  ∧ (e.visual.needleColor = "" ∨ matchColor e.visual.needleColor = true)
  ∧ 0 ≤ e.visual.opacity ∧ e.visual.opacity ≤ 1
  ∧ validFontWeights.contains e.visual.fontWeight = true
  ∧ validFontStyles.contains e.visual.fontStyle = true
  ∧ 0 < e.visual.width ∧ 0 < e.visual.height

instance (e : Element) : Decidable (elementVisualOk e) := by
  unfold elementVisualOk; infer_instance

/-- Visual properties with the `createElement` defaults at a given
position and size; fixture for concrete documents. -/
def mkVisual (x y w h : ℚ) : VisualProperties :=
  ⟨x, y, w, h, "#333333", "#ffffff", "#00ff00", 1, true, true, "Consolas", 12, "normal", "normal"⟩

/-- State after two `createElement("gauge", ...)` calls that land in the
same millisecond (`Date.now()` returns `0` both times). -/
def c1State : EditorState :=
  (createElement (createElement initialState "gauge" 0 0 none 0).1 "gauge" 40 40 none 0).1

/-- A well-formed document with one element of id `"a"`; fixture for the
selection claims. -/
def c2Element : Element :=
  ⟨"a", "gauge", "CPU_Utilization", mkVisual 0 0 150 150, false, 1⟩

/-- Store state holding only `c2Element`, with empty selection. -/
def c2State : EditorState := ⟨⟨"1.0", [c2Element], none⟩, [], [], none⟩

/-- First of two elements sharing the id `"gauge_1"`. -/
def c3ElementA : Element :=
  ⟨"gauge_1", "gauge", "CPU_Utilization", mkVisual 0 0 150 150, false, 1⟩

/-- Second of two elements sharing the id `"gauge_1"`. -/
def c3ElementB : Element :=
  ⟨"gauge_1", "gauge", "GPU_Utilization", mkVisual 200 0 150 150, false, 1⟩

/-- Document with exactly two elements sharing id `"gauge_1"`, otherwise
valid. -/
def c3Layout : LayoutData := ⟨"1.0", [c3ElementA, c3ElementB], none⟩

/-- An otherwise-valid element bound to the unknown sensor
`"Quantum_Flux"`. -/
def c4Element : Element :=
  ⟨"text_1", "text", "Quantum_Flux", mkVisual 5 5 100 30, false, 1⟩

/-- Document holding only `c4Element`. -/
def c4Layout : LayoutData := ⟨"1.0", [c4Element], none⟩

/-- An otherwise-valid animated element with `animationSpeed = 0`. -/
def c5Element : Element :=
  ⟨"gauge_2", "gauge", "CPU_Utilization", mkVisual 10 10 150 150, true, 0⟩

/-- Document holding only `c5Element`. -/
def c5Layout : LayoutData := ⟨"1.0", [c5Element], none⟩

/-- An animated element with `animationSpeed = 42`, outside the practical
range. -/
def w5Element : Element :=
  ⟨"gauge_3", "gauge", "CPU_Utilization", mkVisual 10 10 150 150, true, 42⟩

/-- Document holding only `w5Element`. -/
def w5Layout : LayoutData := ⟨"1.0", [w5Element], none⟩

/-- Store state whose selection holds the dangling id `"ghost"` (reachable
through `selectElement("ghost")`) while the document is empty. -/
def c6State : EditorState := ⟨⟨"1.0", [], none⟩, ["ghost"], [], none⟩

/-- A kept element for the `removeElement` witness. -/
def w6Element : Element :=
  ⟨"keep", "gauge", "CPU_Utilization", mkVisual 0 0 150 150, false, 1⟩

/-- Store state with one element `"keep"`, selected and also on the
clipboard. -/
def w6State : EditorState :=
  ⟨⟨"1.0", [w6Element], none⟩, ["keep"], [w6Element], none⟩

/-- Indexing distributes over append, with the start index shifted. -/
theorem withIdx_append (k : Nat) (l₁ l₂ : List Element) :
    withIdx k (l₁ ++ l₂) = withIdx k l₁ ++ withIdx (k + l₁.length) l₂ := by
  induction l₁ generalizing k with
  | nil => simp [withIdx]
  | cons e es ih =>
      show (k, e) :: withIdx (k + 1) (es ++ l₂)
          = (k, e) :: (withIdx (k + 1) es ++ withIdx (k + (es.length + 1)) l₂)
      rw [ih (k + 1), show k + 1 + es.length = k + (es.length + 1) from by omega]

/-- Every indexed pair produced by `withIdx` has its index in the covered
range and its element in the list. -/
theorem withIdx_mem_facts {k j : Nat} {e : Element} {l : List Element}
    (h : (j, e) ∈ withIdx k l) : (k ≤ j ∧ j < k + l.length) ∧ e ∈ l := by
  induction l generalizing k with
  | nil => simp [withIdx] at h
  | cons x xs ih =>
      simp only [withIdx, List.mem_cons, Prod.mk.injEq] at h
      rcases h with ⟨hj, he⟩ | h
      · subst hj; subst he
        exact ⟨⟨Nat.le_refl _, by simp [List.length_cons]⟩, by simp⟩
      · obtain ⟨⟨h1, h2⟩, h3⟩ := ih h
        exact ⟨⟨by omega, by simp [List.length_cons]; omega⟩, by simp [h3]⟩

/-- Membership in an if-guarded singleton forces equality. -/
theorem mem_ite_singleton {c : Prop} [Decidable c] {a w : ValidationError}
    (h : w ∈ if c then [a] else []) : w = a := by
  split at h
  · simpa using h
  · simp at h

/-- Every warning contributed by the element at index `i` is located at a
field of that element. -/
theorem elementWarnings_mem_path (i : Nat) (e : Element) :
    ∀ w ∈ elementWarnings i e, ∃ f, w.path = IssuePath.elem i f ∧
      f ∈ ["sensor", "visual.fontSize", "visual.x", "visual.y", "animationSpeed"] := by
  intro w hw
  simp only [elementWarnings, List.mem_append] at hw
  rcases hw with (((h | h) | h) | h) | h
  · exact ⟨"sensor", by rw [mem_ite_singleton h], by simp⟩
  · exact ⟨"visual.fontSize", by rw [mem_ite_singleton h], by simp⟩
  · exact ⟨"visual.x", by rw [mem_ite_singleton h], by simp⟩
  · exact ⟨"visual.y", by rw [mem_ite_singleton h], by simp⟩
  · exact ⟨"animationSpeed", by rw [mem_ite_singleton h], by simp⟩

/-- An element at a different index contributes no warning located at
index `i`. -/
theorem countP_warnings_of_ne (i j : Nat) (fld : String) (e : Element) (hij : j ≠ i) :
    (elementWarnings j e).countP (fun w => w.path == IssuePath.elem i fld) = 0 := by
  rw [List.countP_eq_zero]
  intro w hw
  obtain ⟨f, hf, -⟩ := elementWarnings_mem_path j e w hw
  simp only [hf, beq_iff_eq, IssuePath.elem.injEq]
  exact fun hc => hij hc.1

/-- A flat map of empty lists is empty. -/
theorem flatMap_nil_of_forall {α β : Type} {l : List α} {f : α → List β}
    (h : ∀ x ∈ l, f x = []) : l.flatMap f = [] := by
  induction l with
  | nil => rfl
  | cons a as ih =>
      rw [List.flatMap_cons, h a (by simp), ih (fun x hx => h x (by simp [hx]))]
      rfl

/-- An element whose visuals pass all checks and whose id is not
duplicated contributes no errors. -/
theorem elementErrors_eq_nil (allElements : List Element) (i : Nat) (e : Element)
    (hv : elementVisualOk e)
    (hdup : (allElements.filter (fun el => el.id == e.id)).length ≤ 1) :
    elementErrors allElements i e = [] := by
  obtain ⟨h1, h2, h3, h4a, h4b, h5, h6, h7, h8⟩ := hv
  have hdup' : ¬ ((allElements.filter (fun el => el.id == e.id)).length > 1) := by omega
  have hbg : ¬ (e.visual.backgroundColor ≠ "" ∧ matchColor e.visual.backgroundColor = false) := by
    rcases h1 with h | h
    · exact fun hc => hc.1 h
    · intro hc; rw [h] at hc; exact absurd hc.2 (by simp)
  have hfg : ¬ (e.visual.foregroundColor ≠ "" ∧ matchColor e.visual.foregroundColor = false) := by
    rcases h2 with h | h
    · exact fun hc => hc.1 h
    · intro hc; rw [h] at hc; exact absurd hc.2 (by simp)
  have hnc : ¬ (e.visual.needleColor ≠ "" ∧ matchColor e.visual.needleColor = false) := by
    rcases h3 with h | h
    · exact fun hc => hc.1 h
    · intro hc; rw [h] at hc; exact absurd hc.2 (by simp)
  have hop : ¬ (e.visual.opacity < 0 ∨ e.visual.opacity > 1) := by
    push_neg; exact ⟨h4a, h4b⟩
  have hfw : ¬ (validFontWeights.contains e.visual.fontWeight = false) := by
    intro hc; rw [h5] at hc; exact absurd hc (by simp)
  have hfs : ¬ (validFontStyles.contains e.visual.fontStyle = false) := by
    intro hc; rw [h6] at hc; exact absurd hc (by simp)
  have hwd : ¬ (e.visual.width ≤ 0) := not_le.mpr h7
  have hht : ¬ (e.visual.height ≤ 0) := not_le.mpr h8
  simp only [elementErrors, if_neg hdup', if_neg hbg, if_neg hfg, if_neg hnc, if_neg hop,
    if_neg hfw, if_neg hfs, if_neg hwd, if_neg hht, List.append_nil]

/-- An element whose visuals pass all checks but whose id is duplicated
contributes exactly one error, on its id field. -/
theorem elementErrors_eq_dup (allElements : List Element) (i : Nat) (e : Element)
    (hv : elementVisualOk e)
    (hdup : (allElements.filter (fun el => el.id == e.id)).length > 1) :
    (elementErrors allElements i e).map ValidationError.path = [IssuePath.elem i "id"] ∧
    (elementErrors allElements i e).length = 1 ∧
    ∀ err ∈ elementErrors allElements i e, err.severity = "error" := by
  obtain ⟨h1, h2, h3, h4a, h4b, h5, h6, h7, h8⟩ := hv
  have hbg : ¬ (e.visual.backgroundColor ≠ "" ∧ matchColor e.visual.backgroundColor = false) := by
    rcases h1 with h | h
    · exact fun hc => hc.1 h
    · intro hc; rw [h] at hc; exact absurd hc.2 (by simp)
  have hfg : ¬ (e.visual.foregroundColor ≠ "" ∧ matchColor e.visual.foregroundColor = false) := by
    rcases h2 with h | h
    · exact fun hc => hc.1 h
    · intro hc; rw [h] at hc; exact absurd hc.2 (by simp)
  have hnc : ¬ (e.visual.needleColor ≠ "" ∧ matchColor e.visual.needleColor = false) := by
    rcases h3 with h | h
    · exact fun hc => hc.1 h
    · intro hc; rw [h] at hc; exact absurd hc.2 (by simp)
  have hop : ¬ (e.visual.opacity < 0 ∨ e.visual.opacity > 1) := by
    push_neg; exact ⟨h4a, h4b⟩
  have hfw : ¬ (validFontWeights.contains e.visual.fontWeight = false) := by
    intro hc; rw [h5] at hc; exact absurd hc (by simp)
  have hfs : ¬ (validFontStyles.contains e.visual.fontStyle = false) := by
    intro hc; rw [h6] at hc; exact absurd hc (by simp)
  have hwd : ¬ (e.visual.width ≤ 0) := not_le.mpr h7
  have hht : ¬ (e.visual.height ≤ 0) := not_le.mpr h8
  have hmain : ∀ err ∈ elementErrors allElements i e,
      err.path = IssuePath.elem i "id" ∧ err.severity = "error" := by
    simp only [elementErrors, if_pos hdup, if_neg hbg, if_neg hfg, if_neg hnc, if_neg hop,
      if_neg hfw, if_neg hfs, if_neg hwd, if_neg hht]
    intro err herr
    simp only [List.append_nil, List.mem_singleton] at herr
    subst herr
    exact ⟨rfl, rfl⟩
  have hlen : (elementErrors allElements i e).length = 1 := by
    simp only [elementErrors, if_pos hdup, if_neg hbg, if_neg hfg, if_neg hnc, if_neg hop,
      if_neg hfw, if_neg hfs, if_neg hwd, if_neg hht]
    rfl
  refine ⟨?_, hlen, fun err herr => (hmain err herr).2⟩
  have : (elementErrors allElements i e).map ValidationError.path
      = (elementErrors allElements i e).map (fun _ => IssuePath.elem i "id") := by
    apply List.map_congr_left
    intro err herr
    exact (hmain err herr).1
  rw [this, List.map_const']
  rw [hlen]
  rfl

/-- When the document's ids are pairwise distinct, the duplicate-id filter
for any element catches at most one element. -/
theorem filter_id_length_le_one (l : List Element)
    (hnodup : (l.map Element.id).Nodup) (e : Element) :
    (l.filter (fun el => el.id == e.id)).length ≤ 1 := by
  have h1 : (l.filter (fun el => el.id == e.id)).length
      = (l.map Element.id).count e.id := by
    rw [List.count_eq_countP, List.countP_map, ← List.countP_eq_length_filter]
    rfl
  rw [h1]
  exact List.nodup_iff_count_le_one.mp hnodup e.id

/-- The validity flag is the emptiness of the error list. -/
theorem validateLayout_isValid_eq (d : LayoutData) :
    (validateLayout d).isValid = (validateLayout d).errors.isEmpty := rfl

/-- The error list of `validateLayout`, unfolded. -/
theorem validateLayout_errors_eq (d : LayoutData) :
    (validateLayout d).errors = schemaIssues d
      ++ (withIdx 0 d.elements).flatMap (fun p => elementErrors d.elements p.1 p.2) := rfl

/-- The warning list of `validateLayout`, unfolded. -/
theorem validateLayout_warnings_eq (d : LayoutData) :
    (validateLayout d).warnings
      = (withIdx 0 d.elements).flatMap (fun p => elementWarnings p.1 p.2) := rfl

/-- A document with pairwise-distinct ids whose elements all pass the
visual checks validates with an empty error list. -/
theorem validateLayout_errors_nil (d : LayoutData)
    (hnodup : (d.elements.map Element.id).Nodup)
    (hok : ∀ e ∈ d.elements, elementVisualOk e) :
    (validateLayout d).errors = [] := by
  rw [validateLayout_errors_eq]
  have h : (withIdx 0 d.elements).flatMap (fun p => elementErrors d.elements p.1 p.2) = [] := by
    apply flatMap_nil_of_forall
    intro p hp
    obtain ⟨j, e⟩ := p
    obtain ⟨-, he⟩ := withIdx_mem_facts hp
    exact elementErrors_eq_nil d.elements j e (hok e he) (filter_id_length_le_one _ hnodup e)
  rw [h, schemaIssues]
  rfl

/-- An if-guarded singleton issue on a different field contributes no
match. -/
theorem countP_chunk_ne (i : Nat) (fld f : String) (hne : f ≠ fld) {c : Prop}
    [Decidable c] {msg sev : String} :
    (if c then [(⟨IssuePath.elem i f, msg, sev⟩ : ValidationError)] else []).countP
      (fun w => w.path == IssuePath.elem i fld) = 0 := by
  split
  · simp [List.countP_cons, List.countP_nil, beq_iff_eq, hne]
  · rfl

/-- An if-guarded singleton issue on the matched field contributes one
match exactly when its guard holds. -/
theorem countP_chunk_eq (i : Nat) (fld : String) {c : Prop} [Decidable c]
    {msg sev : String} :
    (if c then [(⟨IssuePath.elem i fld, msg, sev⟩ : ValidationError)] else []).countP
      (fun w => w.path == IssuePath.elem i fld) = if c then 1 else 0 := by
  split
  · simp [List.countP_cons, List.countP_nil]
  · rfl

/-- Only the distinguished element contributes warnings at its own index:
the document-wide count at a field of the element at index `pre.length`
equals that element's own count. -/
theorem countP_warnings_split (pre post : List Element) (e : Element) (d : LayoutData)
    (hd : d.elements = pre ++ e :: post) (fld : String) :
    (validateLayout d).warnings.countP (fun w => w.path == IssuePath.elem pre.length fld)
      = (elementWarnings pre.length e).countP
          (fun w => w.path == IssuePath.elem pre.length fld) := by
  rw [validateLayout_warnings_eq, hd, withIdx_append]
  have hcons : withIdx (0 + pre.length) (e :: post)
      = (pre.length, e) :: withIdx (pre.length + 1) post := by
    simp [withIdx]
  rw [hcons, List.flatMap_append, List.flatMap_cons, List.countP_append, List.countP_append]
  have hpre : ((withIdx 0 pre).flatMap fun p => elementWarnings p.1 p.2).countP
      (fun w => w.path == IssuePath.elem pre.length fld) = 0 := by
    rw [List.countP_eq_zero]
    intro w hw
    rw [List.mem_flatMap] at hw
    obtain ⟨⟨j, e'⟩, hmem, hw'⟩ := hw
    obtain ⟨⟨-, hlt⟩, -⟩ := withIdx_mem_facts hmem
    obtain ⟨f, hf, -⟩ := elementWarnings_mem_path j e' w hw'
    simp only [hf, beq_iff_eq, IssuePath.elem.injEq]
    rintro ⟨hj, -⟩
    omega
  have hpost : ((withIdx (pre.length + 1) post).flatMap fun p => elementWarnings p.1 p.2).countP
      (fun w => w.path == IssuePath.elem pre.length fld) = 0 := by
    rw [List.countP_eq_zero]
    intro w hw
    rw [List.mem_flatMap] at hw
    obtain ⟨⟨j, e'⟩, hmem, hw'⟩ := hw
    obtain ⟨⟨hge, -⟩, -⟩ := withIdx_mem_facts hmem
    obtain ⟨f, hf, -⟩ := elementWarnings_mem_path j e' w hw'
    simp only [hf, beq_iff_eq, IssuePath.elem.injEq]
    rintro ⟨hj, -⟩
    omega
  rw [hpre, hpost]
  simp

/-- An element with a non-empty sensor id outside the known set raises
exactly one warning at its sensor field. -/
theorem countP_sensor_warning (i : Nat) (e : Element)
    (hs : e.sensor ≠ "") (hunk : VALID_SENSOR_IDS.contains e.sensor = false) :
    (elementWarnings i e).countP (fun w => w.path == IssuePath.elem i "sensor") = 1 := by
  have hcond : e.sensor ≠ "" ∧ VALID_SENSOR_IDS.contains e.sensor = false := ⟨hs, hunk⟩
  simp only [elementWarnings, if_pos hcond, List.countP_append]
  rw [countP_chunk_ne i "sensor" "visual.fontSize" (by decide),
      countP_chunk_ne i "sensor" "visual.x" (by decide),
      countP_chunk_ne i "sensor" "visual.y" (by decide),
      countP_chunk_ne i "sensor" "animationSpeed" (by decide)]
  simp [List.countP_cons, List.countP_nil]

/-- The number of animation-speed warnings of one element, as a closed
formula over its fields (the JS truthiness guard skips speed `0`). -/
theorem countP_anim_warning (i : Nat) (e : Element) :
    (elementWarnings i e).countP (fun w => w.path == IssuePath.elem i "animationSpeed")
      = if e.animated = true ∧ e.animationSpeed ≠ 0 ∧
            (e.animationSpeed < 1/10 ∨ e.animationSpeed > 10) then 1 else 0 := by
  simp only [elementWarnings, List.countP_append]
  rw [countP_chunk_ne i "animationSpeed" "sensor" (by decide),
      countP_chunk_ne i "animationSpeed" "visual.fontSize" (by decide),
      countP_chunk_ne i "animationSpeed" "visual.x" (by decide),
      countP_chunk_ne i "animationSpeed" "visual.y" (by decide),
      countP_chunk_eq i "animationSpeed"]
  omega

/-- Decoding inverts encoding for visual properties. -/
theorem decodeVisual_encodeVisual (v : VisualProperties) :
    decodeVisual (encodeVisual v) = some v := rfl

/-- Decoding inverts encoding for elements. -/
theorem decodeElement_encodeElement (e : Element) :
    decodeElement (encodeElement e) = some e := rfl

/-- Decoding inverts encoding for element lists. -/
theorem decodeElements_map_encode (es : List Element) :
    decodeElements (es.map encodeElement) = some es := by
  induction es with
  | nil => rfl
  | cons e es ih =>
      rw [List.map_cons, decodeElements, decodeElement_encodeElement, ih]
      rfl

/-- Binding through a decoded element list applies the continuation to the
original list. -/
theorem bind_decodeElements_encode {β : Type} (es : List Element)
    (f : List Element → Option β) :
    (decodeElements (es.map encodeElement)).bind f = f es := by
  rw [decodeElements_map_encode]
  rfl

/-- Decoding inverts encoding for metadata, whichever fields are
present. -/
theorem decodeMeta_encodeMeta (m : LayoutMetadata) :
    decodeMeta (encodeMeta m) = some m := by
  obtain ⟨nm, ds, au⟩ := m
  cases nm <;> cases ds <;> cases au <;> rfl

/-- C1: the id generator does not check or disambiguate.  Two
`createElement("gauge", ...)` calls whose `Date.now()` values coincide
(same millisecond) produce two elements that both carry the id
`"gauge_0"`, so the resulting ids are not pairwise distinct, and the
repository's own `validateLayout` reports the collision as two
duplicate-id errors. -/
theorem createElement_id_collision_bug :
    c1State.layout.elements.map Element.id = ["gauge_0", "gauge_0"] ∧
    ¬ (c1State.layout.elements.map Element.id).Nodup ∧
    (validateLayout c1State.layout).isValid = false ∧
    (validateLayout c1State.layout).errors.map ValidationError.path
      = [IssuePath.elem 0 "id", IssuePath.elem 1 "id"] := by
  decide

/-- C2 counterexample: `selectElement` stores the given id verbatim, so
selecting the id `"ghost"`, which matches no element of the document,
leaves the dangling id `"ghost"` in the selection. -/
theorem selectElement_dangling_id_counterexample :
    (selectElement c2State "ghost").selectedElementIds = ["ghost"] ∧
    ∀ el ∈ (selectElement c2State "ghost").layout.elements, el.id ≠ "ghost" := by
  decide

/-- C2 (amended): the selection operations store the given ids without
filtering against the document; the subset invariant holds after
`selectElement`, `selectMultiple` and `toggleSelection` provided the
pre-state selection and every id passed in refer to existing elements. -/
theorem selection_ops_preserve_existing_ids (s : EditorState) (ids : List String)
    (id : String)
    (hsel : ∀ i ∈ s.selectedElementIds, ∃ el ∈ s.layout.elements, el.id = i)
    (hids : ∀ i ∈ ids, ∃ el ∈ s.layout.elements, el.id = i)
    (hid : ∃ el ∈ s.layout.elements, el.id = id) :
    (∀ i ∈ (selectElement s id).selectedElementIds,
        ∃ el ∈ (selectElement s id).layout.elements, el.id = i) ∧
    (∀ i ∈ (selectMultiple s ids).selectedElementIds,
        ∃ el ∈ (selectMultiple s ids).layout.elements, el.id = i) ∧
    (∀ i ∈ (toggleSelection s id).selectedElementIds,
        ∃ el ∈ (toggleSelection s id).layout.elements, el.id = i) := by
  refine ⟨?_, ?_, ?_⟩
  · intro i hi
    simp only [selectElement, List.mem_singleton] at hi
    subst hi
    exact hid
  · intro i hi
    exact hids i hi
  · intro i hi
    by_cases hc : s.selectedElementIds.contains id
    · simp only [toggleSelection, if_pos hc] at hi ⊢
      rw [List.mem_filter] at hi
      exact hsel i hi.1
    · simp only [toggleSelection, if_neg hc] at hi ⊢
      rw [List.mem_append] at hi
      rcases hi with h | h
      · exact hsel i h
      · rw [List.mem_singleton] at h
        subst h
        exact hid

/-- C2 witness: selecting the existing id `"a"` keeps the selection inside
the document. -/
theorem selection_ops_preserve_existing_ids_witness :
    ∃ el ∈ (selectElement c2State "a").layout.elements, el.id = "a" :=
  (selection_ops_preserve_existing_ids c2State ["a"] "a"
    (by decide) (by decide) (by decide)).1 "a" (by decide)

/-- C3: a document whose two elements share the id `"gauge_1"` and are
otherwise structurally valid fails validation with exactly two errors, one
per offending element, each located at that element's id field. -/
theorem validate_duplicate_id_two_errors (e1 e2 : Element) (d : LayoutData)
    (hd : d.elements = [e1, e2])
    (h1 : e1.id = "gauge_1") (h2 : e2.id = "gauge_1")
    (hv1 : elementVisualOk e1) (hv2 : elementVisualOk e2) :
    (validateLayout d).isValid = false ∧
    (validateLayout d).errors.length = 2 ∧
    (validateLayout d).errors.map ValidationError.path
      = [IssuePath.elem 0 "id", IssuePath.elem 1 "id"] ∧
    ∀ err ∈ (validateLayout d).errors, err.severity = "error" := by
  have hdup1 : ([e1, e2].filter (fun el => el.id == e1.id)).length > 1 := by
    simp [h1, h2]
  have hdup2 : ([e1, e2].filter (fun el => el.id == e2.id)).length > 1 := by
    simp [h1, h2]
  have herr : (validateLayout d).errors
      = elementErrors [e1, e2] 0 e1 ++ elementErrors [e1, e2] 1 e2 := by
    rw [validateLayout_errors_eq, hd]
    simp [withIdx, schemaIssues, List.flatMap_cons, List.flatMap_nil]
  obtain ⟨hp1, hl1, hs1⟩ := elementErrors_eq_dup [e1, e2] 0 e1 hv1 hdup1
  obtain ⟨hp2, hl2, hs2⟩ := elementErrors_eq_dup [e1, e2] 1 e2 hv2 hdup2
  refine ⟨?_, ?_, ?_, ?_⟩
  · rw [validateLayout_isValid_eq, herr]
    obtain ⟨a, ha⟩ := List.length_eq_one.mp hl1
    rw [ha]
    rfl
  · rw [herr, List.length_append, hl1, hl2]
  · rw [herr, List.map_append, hp1, hp2]
    rfl
  · intro err herr'
    rw [herr, List.mem_append] at herr'
    rcases herr' with h | h
    · exact hs1 err h
    · exact hs2 err h

/-- C3 witness: the concrete two-element `"gauge_1"` document. -/
theorem validate_duplicate_id_two_errors_witness :
    (validateLayout c3Layout).isValid = false ∧
    (validateLayout c3Layout).errors.length = 2 ∧
    (validateLayout c3Layout).errors.map ValidationError.path
      = [IssuePath.elem 0 "id", IssuePath.elem 1 "id"] ∧
    ∀ err ∈ (validateLayout c3Layout).errors, err.severity = "error" :=
  validate_duplicate_id_two_errors c3ElementA c3ElementB c3Layout
    rfl rfl rfl (by decide) (by decide)

/-- C4: an element whose (non-empty) sensor id lies outside the known
sensor set contributes exactly one issue, located at its sensor field and
placed among the warnings; the errors carry no issue for that field, and
an otherwise valid document stays valid. -/
theorem unknown_sensor_reported_as_warning (pre post : List Element) (e : Element)
    (d : LayoutData)
    (hd : d.elements = pre ++ e :: post)
    (hs : e.sensor ≠ "")
    (hunk : VALID_SENSOR_IDS.contains e.sensor = false)
    (hnodup : (d.elements.map Element.id).Nodup)
    (hok : ∀ e' ∈ d.elements, elementVisualOk e') :
    (validateLayout d).isValid = true ∧
    (validateLayout d).warnings.countP
        (fun w => w.path == IssuePath.elem pre.length "sensor") = 1 ∧
    (validateLayout d).errors.countP
        (fun w => w.path == IssuePath.elem pre.length "sensor") = 0 := by
  have herr := validateLayout_errors_nil d hnodup hok
  refine ⟨?_, ?_, ?_⟩
  · rw [validateLayout_isValid_eq, herr]
    rfl
  · rw [countP_warnings_split pre post e d hd "sensor",
        countP_sensor_warning pre.length e hs hunk]
  · rw [herr]
    rfl

/-- C4 witness: the sensor id `"Quantum_Flux"` on an otherwise valid
one-element document. -/
theorem unknown_sensor_reported_as_warning_witness :
    (validateLayout c4Layout).isValid = true ∧
    (validateLayout c4Layout).warnings.countP
        (fun w => w.path == IssuePath.elem 0 "sensor") = 1 ∧
    (validateLayout c4Layout).errors.countP
        (fun w => w.path == IssuePath.elem 0 "sensor") = 0 :=
  unknown_sensor_reported_as_warning [] [] c4Element c4Layout
    rfl (by decide) (by decide) (by decide) (by decide)

/-- C5 counterexample: an animated element with `animationSpeed = 0` —
outside `[0.1, 10]` — receives no warning at all, because the JS
truthiness guard `element.animated && element.animationSpeed` skips speed
zero. -/
theorem animation_speed_zero_no_warning_counterexample :
    c5Element.animated = true ∧ c5Element.animationSpeed = 0 ∧
    ((0 : ℚ) < 1/10 ∨ (0 : ℚ) > 10) ∧
    (validateLayout c5Layout).warnings = [] := by
  refine ⟨rfl, rfl, Or.inl (by norm_num), by decide⟩

/-- C5 (amended): for an animated element the animation-speed warning is
emitted exactly when the speed is non-zero and outside `[0.1, 10]` (speed
`0` is skipped by the JS truthiness guard), and a non-animated element
never receives one. -/
theorem animation_speed_warning_characterization (pre post : List Element)
    (e : Element) (d : LayoutData)
    (hd : d.elements = pre ++ e :: post) :
    ((validateLayout d).warnings.countP
        (fun w => w.path == IssuePath.elem pre.length "animationSpeed") = 1
      ↔ e.animated = true ∧ e.animationSpeed ≠ 0 ∧
          (e.animationSpeed < 1/10 ∨ e.animationSpeed > 10)) ∧
    (e.animated = false →
      (validateLayout d).warnings.countP
        (fun w => w.path == IssuePath.elem pre.length "animationSpeed") = 0) := by
  rw [countP_warnings_split pre post e d hd "animationSpeed",
      countP_anim_warning pre.length e]
  constructor
  · constructor
    · intro h1
      by_cases hc : e.animated = true ∧ e.animationSpeed ≠ 0 ∧
          (e.animationSpeed < 1/10 ∨ e.animationSpeed > 10)
      · exact hc
      · rw [if_neg hc] at h1
        exact absurd h1 (by decide)
    · intro hc
      rw [if_pos hc]
  · intro hfalse
    have hnc : ¬ (e.animated = true ∧ e.animationSpeed ≠ 0 ∧
        (e.animationSpeed < 1/10 ∨ e.animationSpeed > 10)) := by
      rintro ⟨hcond, -⟩
      rw [hfalse] at hcond
      simp at hcond
    rw [if_neg hnc]

/-- C5 witness: an animated element with speed 42 receives exactly one
animation-speed warning. -/
theorem animation_speed_warning_characterization_witness :
    (validateLayout w5Layout).warnings.countP
        (fun w => w.path == IssuePath.elem 0 "animationSpeed") = 1 :=
  (animation_speed_warning_characterization [] [] w5Element w5Layout rfl).1.mpr
    ⟨rfl, show (42 : ℚ) ≠ 0 by norm_num, Or.inr (show (42 : ℚ) > 10 by norm_num)⟩

/-- C6 counterexample: in a reachable state whose selection holds the
dangling id `"ghost"` while no element carries it, `removeElement("ghost")`
is not a no-op on the selection — it empties it. -/
theorem removeElement_dangling_selection_counterexample :
    (∀ el ∈ c6State.layout.elements, el.id ≠ "ghost") ∧
    c6State.selectedElementIds = ["ghost"] ∧
    (removeElement c6State "ghost").selectedElementIds = [] ∧
    (removeElement c6State "ghost").selectedElementIds ≠ c6State.selectedElementIds := by
  decide

/-- C6 (amended): `removeElement(id)` removes exactly the elements with
that id from the document and exactly that id from the selection, leaves
the clipboard untouched, leaves the document unchanged when no element
has the id (and the selection too, provided the id is not danglingly
selected), and is idempotent. -/
theorem removeElement_spec (s : EditorState) (id : String) :
    (∀ el, el ∈ (removeElement s id).layout.elements
        ↔ el ∈ s.layout.elements ∧ el.id ≠ id) ∧
    (∀ i, i ∈ (removeElement s id).selectedElementIds
        ↔ i ∈ s.selectedElementIds ∧ i ≠ id) ∧
    (removeElement s id).clipboard = s.clipboard ∧
    ((∀ el ∈ s.layout.elements, el.id ≠ id) →
        (removeElement s id).layout = s.layout) ∧
    ((∀ el ∈ s.layout.elements, el.id ≠ id) → id ∉ s.selectedElementIds →
        (removeElement s id).selectedElementIds = s.selectedElementIds) ∧
    removeElement (removeElement s id) id = removeElement s id := by
  refine ⟨?_, ?_, rfl, ?_, ?_, ?_⟩
  · intro el
    simp [removeElement, runValidate, List.mem_filter]
  · intro i
    simp [removeElement, runValidate, List.mem_filter]
  · intro h
    simp only [removeElement, runValidate]
    rw [List.filter_eq_self.mpr (fun a ha => by simpa using h a ha)]
  · intro h hsel
    simp only [removeElement, runValidate]
    rw [List.filter_eq_self.mpr (fun a ha => by simp; rintro rfl; exact hsel ha)]
  · simp [removeElement, runValidate, List.filter_filter]

/-- C6 witness: removing the absent id `"gone"` from a populated state
changes neither document, selection nor clipboard, and a repeat removal
of an existing id is idempotent. -/
theorem removeElement_spec_witness :
    (removeElement w6State "gone").layout = w6State.layout ∧
    (removeElement w6State "gone").selectedElementIds = w6State.selectedElementIds ∧
    (removeElement w6State "gone").clipboard = w6State.clipboard ∧
    removeElement (removeElement w6State "keep") "keep" = removeElement w6State "keep" := by
  obtain ⟨-, -, hclip, hnoop, hsel, -⟩ := removeElement_spec w6State "gone"
  obtain ⟨-, -, -, -, -, hidem⟩ := removeElement_spec w6State "keep"
  exact ⟨hnoop (by decide), hsel (by decide) (by decide), hclip, hidem⟩

/-- C7: the resize computation clamps both dimensions to the unconditional
20×20 floor for every start size, handle combination and pointer delta;
and with the `e` and `s` edges active, start size 100×100 and canvas-space
delta (30, -10), the new size is exactly 130×90. -/
theorem resize_floor_and_scenario :
    (∀ (resizeStart : ResizeStart) (resizeHandle : String) (clientX clientY zoom : ℚ),
        20 ≤ (handleResizeMove resizeStart resizeHandle clientX clientY zoom).1 ∧
        20 ≤ (handleResizeMove resizeStart resizeHandle clientX clientY zoom).2) ∧
    handleResizeMove ⟨0, 0, 100, 100⟩ "se" 30 (-10) 1 = (130, 90) := by
  constructor
  · intro rs h cx cy z
    exact ⟨le_max_left _ _, le_max_left _ _⟩
  · have he : jsIncludesChar "se" 'e' = true := by decide
    have hww : jsIncludesChar "se" 'w' = false := by decide
    have hss : jsIncludesChar "se" 's' = true := by decide
    have hnn : jsIncludesChar "se" 'n' = false := by decide
    simp only [handleResizeMove, he, hww, hss, hnn]
    norm_num [max_eq_right]

/-- C8: deserializing the serialized form of any document reproduces it
field for field. -/
theorem layout_roundtrip (d : LayoutData) :
    decodeLayout (encodeLayout d) = some d := by
  obtain ⟨v, es, md⟩ := d
  cases md with
  | none => exact bind_decodeElements_encode es _
  | some m =>
      obtain ⟨nm, ds, au⟩ := m
      cases nm <;> cases ds <;> cases au <;> exact bind_decodeElements_encode es _

/-- C9 counterexample: `createElement` is declared `=> void` and its body
ends without a return, so the caller receives `undefined` — not the new
element's id `"gauge_0"`. -/
theorem createElement_void_return_counterexample :
    (createElement initialState "gauge" 100 100 none 0).1.layout.elements.map Element.id
      = ["gauge_0"] ∧
    (createElement initialState "gauge" 100 100 none 0).2 = none ∧
    (createElement initialState "gauge" 100 100 none 0).2 ≠ some "gauge_0" := by
  refine ⟨by decide, rfl, by decide⟩

/-- C9 (amended): for a known element kind, `createElement` appends one
new element to the end of the document, placed at the given position with
the catalog's default size, but returns nothing (the JS return value is
`undefined`), not the new element's id. -/
theorem createElement_appends_catalog_defaults (s : EditorState) (type : String)
    (x y : ℚ) (sensor : Option String) (now : Nat) (defn : ElementDefinition)
    (h : ELEMENT_DEFINITIONS type = some defn) :
    ∃ e : Element,
      (createElement s type x y sensor now).1.layout.elements
        = s.layout.elements ++ [e] ∧
      e.type = type ∧ e.visual.x = x ∧ e.visual.y = y ∧
      e.visual.width = defn.defaultSize.width ∧
      e.visual.height = defn.defaultSize.height ∧
      (createElement s type x y sensor now).2 = none := by
  unfold createElement
  rw [h]
  exact ⟨_, rfl, rfl, rfl, rfl, rfl, rfl, rfl⟩

/-- C9 witness: creating a gauge appends an element of the catalog's
150×150 default size and returns nothing. -/
theorem createElement_appends_catalog_defaults_witness :
    ∃ e : Element,
      (createElement initialState "gauge" 100 100 none 0).1.layout.elements
        = initialState.layout.elements ++ [e] ∧
      e.type = "gauge" ∧ e.visual.x = 100 ∧ e.visual.y = 100 ∧
      e.visual.width = 150 ∧ e.visual.height = 150 ∧
      (createElement initialState "gauge" 100 100 none 0).2 = none :=
  createElement_appends_catalog_defaults initialState "gauge" 100 100 none 0
    ⟨"gauge", "Gauge", "Circular needle gauge for displaying values", "basic", "⭕",
      ⟨150, 150⟩, ["CPU_Utilization", "GPU_Utilization", "Memory_Usage"],
      ["needleColor"], ["backgroundColor", "foregroundColor"]⟩
    rfl

/-- C10: for a kind with no catalog entry, `createElement` returns early:
it does not throw, adds no element, leaves the whole store state —
selection and cached validation result included — unchanged, and returns
`undefined`. -/
theorem createElement_unknown_kind_noop (s : EditorState) (type : String) (x y : ℚ)
    (sensor : Option String) (now : Nat) (h : ELEMENT_DEFINITIONS type = none) :
    createElement s type x y sensor now = (s, none) := by
  simp only [createElement, h]

/-- C10 witness: the canvas tool name `"select"` has no catalog entry and
creating with it is a complete no-op. -/
theorem createElement_unknown_kind_noop_witness :
    ELEMENT_DEFINITIONS "select" = none ∧
    createElement initialState "select" 0 0 none 0 = (initialState, none) :=
  ⟨rfl, createElement_unknown_kind_noop initialState "select" 0 0 none 0 rfl⟩

end HuddyWeb
